import Mathlib

/-!
Verification of the deepthink repository's WebSocket transport
(src/backend/src/websocket/ChatWebSocket.ts), the LLM provider factory
(LLMFactory with instance caching), and the orchestration engine contract.
JavaScript dynamic values are embedded as the JSValue type; the transport's
message handler is embedded as a pure function over a session state, an
incoming parsed message, and the behavior of the (external) engine stream.
-/

/-- A JavaScript/JSON dynamic value. `undefined` stands for JavaScript's
`undefined` (absent property), distinct from `null`. -/
inductive JSValue where
  | undefined : JSValue
  | null : JSValue
  | bool (b : Bool) : JSValue
  | num (n : Int) : JSValue
  | str (s : String) : JSValue
  | arr (elems : List JSValue) : JSValue
  | obj (fields : List (String × JSValue)) : JSValue
deriving Repr

/-- JavaScript truthiness of a value (`if (v)`). Numbers are modelled as
integers, so the NaN case does not arise. -/
def JSValue.truthy : JSValue → Bool
  | .undefined => false
  | .null => false
  | .bool b => b
  | .num n => n != 0
  | .str s => s != ""
  | .arr _ => true
  | .obj _ => true

/-- Property access `v.k` (also `v?.k`): `undefined` when the value is not
an object or lacks the key; with duplicate keys the last one wins, as in
objects produced by JSON.parse. -/
def jget : JSValue → String → JSValue
  | .obj fields, k =>
    match fields.reverse.find? (fun p => p.1 == k) with
    | some p => p.2
    | none => .undefined
  | _, _ => .undefined

/-- JavaScript strict equality `v === "s"` against a string literal:
true exactly when `v` is that string. -/
def JSValue.isStr : JSValue → String → Bool
  | .str t, s => t == s
  | _, _ => false

example : jget (.obj [("a", .num 1), ("a", .num 2)]) "a" = .num 2 := rfl
example : (JSValue.str "").truthy = false := rfl
example : (JSValue.str "ping").isStr "ping" = true := rfl

/-! ## LLMFactory (provider construction and instance cache) -/

/-- The effective LLM configuration seen by `LLMFactory.createLLM`
(`customConfig || llmConfig.get()` already resolved). Fields are
dynamically-typed in the source; in practice they are strings, so an
absent or `undefined` field is `none`. -/
structure LLMConfig where
  provider : Option String := none
  apiKey : Option String := none
  baseUrl : Option String := none
  defaultModel : Option String := none
deriving Repr, DecidableEq

/-- JavaScript `v || d` for a string-valued field: the default is taken
when the field is absent (`undefined`) or the empty string (falsy). -/
def jsOr (v : Option String) (d : String) : String :=
  match v with
  | some s => if s == "" then d else s
  | none => d

/-- JavaScript falsiness of a string-valued field (`!config.apiKey`). -/
def strFalsy (v : Option String) : Bool :=
  match v with
  | some s => s == ""
  | none => true

/-- `LLMFactory.getCacheKey`: the template literal
`provider:apiKey:baseUrl:defaultModel` with `||`-defaults
`openai`, empty, empty, empty. -/
def getCacheKey (c : LLMConfig) : String :=
  jsOr c.provider "openai" ++ ":" ++ jsOr c.apiKey "" ++ ":"
    ++ jsOr c.baseUrl "" ++ ":" ++ jsOr c.defaultModel ""

/-- One constructed provider instance
(`new OpenAIProvider(config.apiKey, config.baseUrl, config.defaultModel)`).
`id` numbers construction order so that instance identity is observable. -/
structure Provider where
  id : Nat
  apiKey : Option String
  baseUrl : Option String
  defaultModel : Option String
deriving Repr, DecidableEq

/-- `MAX_CACHE_SIZE`: maximum number of cached provider instances. -/
def MAX_CACHE_SIZE : Nat := 20

/-- The static state of `LLMFactory`: the cache is a JavaScript `Map`,
modelled as an insertion-ordered association list (first element = first
key in map iteration order); `nextId` numbers the next construction. -/
structure FactoryState where
  cache : List (String × Provider)
  nextId : Nat
deriving Repr, DecidableEq

/-- `Map.get`: the value stored at a key, if any. -/
def cacheGet (cache : List (String × Provider)) (k : String) : Option Provider :=
  (cache.find? (fun p => p.1 == k)).map (fun p => p.2)

/-- `LLMFactory.createLLM` on an effective config: throws when
`config.apiKey` is falsy; otherwise returns the cached instance for the
cache key when present, else evicts the oldest entry when the cache is
full, constructs a provider (every `config.provider` value takes the
OpenAI-compatible path) and caches it. -/
def createLLM (cfg : LLMConfig) (st : FactoryState) :
    Except String (Provider × FactoryState) :=
  if strFalsy cfg.apiKey then
    .error "LLM API Key 未配置。请在管理面板 (/admin) 中设置 API Key，或在 .env 中配置 OPENAI_API_KEY。"
  else
    let cacheKey := getCacheKey cfg
    match cacheGet st.cache cacheKey with
    | some cached => .ok (cached, st)
    | none =>
      let cache1 :=
        if st.cache.length ≥ MAX_CACHE_SIZE then st.cache.drop 1 else st.cache
      let provider : Provider :=
        ⟨st.nextId, cfg.apiKey, cfg.baseUrl, cfg.defaultModel⟩
      .ok (provider, ⟨cache1 ++ [(cacheKey, provider)], st.nextId + 1⟩)

example :
    createLLM { apiKey := some "k" } ⟨[], 0⟩ =
      .ok (⟨0, some "k", none, none⟩,
        ⟨[("openai:k::", ⟨0, some "k", none, none⟩)], 1⟩) := rfl

/-! ## WebSocket transport (setupWebSocket in ChatWebSocket.ts) -/

/-- `MAX_MESSAGE_SIZE`: maximum allowed incoming message size, 1MB. -/
def MAX_MESSAGE_SIZE : Nat := 1 * 1024 * 1024

/-- Wire payload of an error event sent by the transport. -/
def errEvent (m : String) : JSValue :=
  .obj [("type", .str "error"), ("message", .str m)]

/-- Wire payload of the pre-serialized pong response. -/
def pongEvent : JSValue := .obj [("type", .str "pong")]

/-- One update yielded by `engine.stream`, as discriminated by the
transport loop on `update.type`; the payload fields the loop reads
(`node`, `data`, `state`) are kept as dynamic values. `other` covers any
update whose type matches none of the four recognized tags. -/
inductive Update where
  | node_start (node : JSValue) (data : JSValue)
  | expert_complete (data : JSValue)
  | node_complete (node : JSValue) (state : JSValue)
  | complete (state : JSValue)
  | other
deriving Repr

/-- The body of the transport's streaming loop, lines 106-138: the wire
payload sent for one update (`none` when the update's type is
unrecognized and nothing is sent). -/
def translateUpdate : Update → Option JSValue
  | .node_start node data =>
    some (.obj [("type", .str "state_update"), ("node", node),
      ("status", .str "started"),
      ("data", if data.truthy then data else .obj [])])
  | .expert_complete data =>
    some (.obj [("type", .str "expert_complete"), ("data", data)])
  | .node_complete node state =>
    let base := [("type", .str "state_update"), ("node", node),
      ("status", .str "completed")]
    if node.isStr "search" && (jget state "searchResults").truthy then
      some (.obj (base ++ [("searchResults", jget state "searchResults")]))
    else
      some (.obj base)
  | .complete state =>
    some (.obj [("type", .str "complete"),
      ("data", .obj [("final_output", jget state "finalOutput"),
        ("experts", jget state "expertsOutput"),
        ("searchResults", jget state "searchResults")])])
  | .other => none

/-- The RunConfig the transport hands to `engine.stream`, lines 92-96:
`maxRounds` always set; the other fields only when assigned. -/
structure StreamConfig where
  maxRounds : JSValue
  defaultModel : Option JSValue := none
  apiKey : Option JSValue := none
  baseUrl : Option JSValue := none
  fileContext : Option JSValue := none
deriving Repr

/-- Lines 92-96: `maxRounds: data.maxRounds || 1`, and each optional
field assigned only when the corresponding message field is truthy. -/
def buildStreamConfig (data : JSValue) : StreamConfig :=
  { maxRounds :=
      if (jget data "maxRounds").truthy then jget data "maxRounds" else .num 1
    defaultModel :=
      if (jget data "model").truthy then some (jget data "model") else none
    apiKey :=
      if (jget data "apiKey").truthy then some (jget data "apiKey") else none
    baseUrl :=
      if (jget data "baseUrl").truthy then some (jget data "baseUrl") else none
    fileContext :=
      if (jget data "fileContext").truthy then some (jget data "fileContext")
      else none }

/-- Per-connection session state: the closure variables `isProcessing`
and `currentEngine` (tracked as presence of a non-null engine). -/
structure Session where
  isProcessing : Bool
  hasEngine : Bool
deriving Repr, DecidableEq

/-- Behavior of one run of the external `engine.stream` async iterator:
the updates it yields, and whether the iteration ends by throwing an
error (with the given message) after the last yielded update. -/
structure EngineRun where
  updates : List Update
  thrown : Option String
deriving Repr

/-- Result of the streaming loop: wire payloads sent and whether the
loop broke out because the socket left readyState 1 (calling
`engine.abort()` on the way out). -/
structure LoopOut where
  sent : List JSValue
  broke : Bool
deriving Repr

/-- The `for await` loop, lines 99-139. `openFor` is the number of loop
iterations for which `socket.readyState === 1` still holds; from
iteration `openFor` on, the readyState check fails, `engine.abort()` is
called and the loop breaks without consuming further updates. -/
def streamLoop (openFor : Nat) : List Update → LoopOut
  | [] => ⟨[], false⟩
  | u :: rest =>
    match openFor with
    | 0 => ⟨[], true⟩
    | n + 1 =>
      let tail := streamLoop n rest
      ⟨(translateUpdate u).toList ++ tail.sent, tail.broke⟩

/-- Everything one `socket.on('message')` invocation does that is
observable: payloads sent out, `engine.abort()` calls, whether a new
`DeepThinkEngine` was constructed, the config passed to `stream` (if
called), and the session state left behind. -/
structure HandlerResult where
  sent : List JSValue
  abortCalls : Nat
  engineCreated : Bool
  streamCalledWith : Option StreamConfig
  final : Session
deriving Repr

/-- JavaScript `String.prototype.trim`: strip whitespace from both ends
(modelled over the character list with `Char.isWhitespace`). -/
def jsTrim (s : String) : String :=
  ⟨((s.data.dropWhile Char.isWhitespace).reverse.dropWhile
      Char.isWhitespace).reverse⟩

/-- `typeof data.query === 'string' ? data.query.trim() : ''`, line 71. -/
def queryOf (data : JSValue) : String :=
  match jget data "query" with
  | .str q => jsTrim q
  | _ => ""

/-- The run phase of the handler, lines 90-143 and the `catch` block:
construct the engine (already counted by the caller), call `stream`
with the built config, drive the loop, and on an exception from the
iterator let the `finally` reset the session and the `catch` send the
error (the catch-block send succeeds when the socket is still open
after the consumed iterations, `run.updates.length < openFor`). -/
def runBranch (openFor : Nat) (run : EngineRun) (cfg : StreamConfig) :
    HandlerResult :=
  let lo := streamLoop openFor run.updates
  let loopAborts : Nat := if lo.broke then 1 else 0
  match run.thrown with
  | some m =>
    if lo.broke then
      ⟨lo.sent, loopAborts, true, some cfg, ⟨false, false⟩⟩
    else
      let errSent :=
        if run.updates.length < openFor then [errEvent m] else []
      ⟨lo.sent ++ errSent, loopAborts, true, some cfg, ⟨false, false⟩⟩
  | none => ⟨lo.sent, loopAborts, true, some cfg, ⟨false, false⟩⟩

/-- The message handler, lines 30-152, for one incoming message. The raw
text's length and its parse result (`none` when `JSON.parse` throws) are
inputs; `openFor` and `run` describe the socket and engine behavior
during the streaming phase, reached only on a valid query. The message
arrives on an open socket, so sends before the loop succeed. -/
def handleMessage (s : Session) (rawLen : Nat) (parsed : Option JSValue)
    (openFor : Nat) (run : EngineRun) : HandlerResult :=
  if rawLen > MAX_MESSAGE_SIZE then
    ⟨[errEvent "Message too large"], 0, false, none, s⟩
  else
    match parsed with
    | none => ⟨[errEvent "Invalid JSON"], 0, false, none, s⟩
    | some data =>
      if (jget data "type").isStr "ping" then
        ⟨[pongEvent], 0, false, none, s⟩
      else if (jget data "type").isStr "cancel" then
        ⟨[], if s.hasEngine then 1 else 0, false, none, s⟩
      else if s.isProcessing then
        ⟨[errEvent "Already processing a query. Please wait or send cancel."],
          0, false, none, s⟩
      else if queryOf data == "" then
          ⟨[errEvent "Empty query"], 0, false, none, s⟩
        else if (queryOf data).length > 50000 then
          ⟨[errEvent "Query too long (max 50,000 characters)"],
            0, false, none, s⟩
        else
          runBranch openFor run (buildStreamConfig data)

/-- The `socket.on('close')` handler, lines 155-162: abort any in-flight
engine and drop the reference; returns the number of `abort()` calls and
the session state left behind. -/
def closeHandler (s : Session) : Nat × Session :=
  if s.hasEngine then (1, ⟨s.isProcessing, false⟩) else (0, s)

/-- A parsed message reaches the engine-run branch: not recognized as
ping or cancel, and its query is a nonempty trimmed string of at most
50000 characters (message size checked separately on the raw text). -/
def validQuery (data : JSValue) : Bool :=
  !(jget data "type").isStr "ping" && !(jget data "type").isStr "cancel"
    && queryOf data != "" && decide ((queryOf data).length ≤ 50000)

/-! ## Engine event discipline (DeepThinkEngine, modelled from the spec) -/

/-- A non-terminal progress event emitted inside a round: NodeStart,
NodeComplete or ExpertComplete. -/
inductive ProgressEvent where
  | nodeStart (node : String)
  | nodeComplete (node : String)
  | expertComplete
deriving Repr, DecidableEq

/-- An event of the engine's outward stream: a progress event, the
Complete event, or a terminal Error event. -/
inductive EngineEvent where
  | progress (p : ProgressEvent)
  | complete
  | error (msg : String)
deriving Repr, DecidableEq

/-- What one round of Research, Fan-out, Synthesis can come to: normal
completion with a convergence decision, a node-level fatal failure, or
cancellation taking effect; each carries the progress events the round
emitted before ending. -/
inductive RoundOutcome where
  | ok (events : List ProgressEvent) (converged : Bool)
  | fatal (events : List ProgressEvent) (msg : String)
  | cancelled (events : List ProgressEvent)
deriving Repr

/-- Modelled from the spec: `DeepThinkEngine.stream`, whose source is not
in the repository snapshot (only its caller is). Section 4.1: the
orchestrator drives rounds `1..maxRounds` (here `fuel` counts the rounds
still permitted, `r` the current round number, `behavior` what each round
does); it continues unless the round reported convergence, cancellation
took effect, or rounds are exhausted; on the terminal condition it emits
exactly one Complete event; a fatal node failure emits one Error event
and ends the stream with no Complete; cancellation ends the stream
silently. Returns the emitted events and whether the run was cancelled. -/
def engineRun (behavior : Nat → RoundOutcome) :
    Nat → Nat → List EngineEvent × Bool
  | 0, _ => ([.complete], false)
  | fuel + 1, r =>
    match behavior r with
    | .ok evs converged =>
      if converged then (evs.map .progress ++ [.complete], false)
      else
        let rest := engineRun behavior fuel (r + 1)
        (evs.map .progress ++ rest.1, rest.2)
    | .fatal evs msg => (evs.map .progress ++ [.error msg], false)
    | .cancelled evs => (evs.map .progress, true)

/-- Number of Complete events in a stream. -/
def completeCount : List EngineEvent → Nat
  | [] => 0
  | .complete :: rest => 1 + completeCount rest
  | _ :: rest => completeCount rest

/-- Number of terminal Error events in a stream. -/
def errorCount : List EngineEvent → Nat
  | [] => 0
  | .error _ :: rest => 1 + errorCount rest
  | _ :: rest => errorCount rest

/-! ## Spec-side wire shapes, for comparison with the transport loop -/

/-- A state field is spec-typed when its `searchResults` entry matches
the spec data model: an ordered sequence of results, or unset. -/
def specTypedState (state : JSValue) : Bool :=
  match jget state "searchResults" with
  | .arr _ => true
  | .undefined => true
  | _ => false

/-- An update is spec-typed: a NodeStart's `data` is an object or absent,
and a NodeComplete's state is spec-typed. -/
def specTypedUpdate : Update → Bool
  | .node_start _ data =>
    match data with
    | .obj _ => true
    | .undefined => true
    | _ => false
  | .node_complete _ state => specTypedState state
  | _ => true

/-- The spec carries a `searchResults` value exactly when the state's
`searchResults` is a set sequence. -/
def specCarriesSearchResults (state : JSValue) : Bool :=
  match jget state "searchResults" with
  | .arr _ => true
  | _ => false

/-- The Event wire shapes exactly as the spec lists them in section 6:
NodeStart becomes a `state_update` with status `started` and `data`
defaulting to the empty object when absent; ExpertComplete keeps its
`data`; NodeComplete becomes a `state_update` with status `completed`,
with the optional `searchResults` field added exactly when the node is
`search` and the state carries search results; Complete carries
`final_output`, `experts` and `searchResults` drawn from the state. -/
def wireShapeSpec : Update → Option JSValue
  | .node_start node data =>
    let dataField := match data with
      | .undefined => JSValue.obj []
      | d => d
    some (.obj [("type", .str "state_update"), ("node", node),
      ("status", .str "started"), ("data", dataField)])
  | .expert_complete data =>
    some (.obj [("type", .str "expert_complete"), ("data", data)])
  | .node_complete node state =>
    let core := [("type", JSValue.str "state_update"), ("node", node),
      ("status", JSValue.str "completed")]
    let extra :=
      if node.isStr "search" && specCarriesSearchResults state then
        [("searchResults", jget state "searchResults")]
      else []
    some (.obj (core ++ extra))
  | .complete state =>
    some (.obj [("type", .str "complete"),
      ("data", .obj [("final_output", jget state "finalOutput"),
        ("experts", jget state "expertsOutput"),
        ("searchResults", jget state "searchResults")])])
  | .other => none

/-! ## Helper lemmas -/

theorem completeCount_progress_append (evs : List ProgressEvent)
    (l : List EngineEvent) :
    completeCount (evs.map EngineEvent.progress ++ l) = completeCount l := by
  induction evs with
  | nil => rfl
  | cons e rest ih => simpa [completeCount] using ih

theorem errorCount_progress_append (evs : List ProgressEvent)
    (l : List EngineEvent) :
    errorCount (evs.map EngineEvent.progress ++ l) = errorCount l := by
  induction evs with
  | nil => rfl
  | cons e rest ih => simpa [errorCount] using ih

theorem completeCount_progress (evs : List ProgressEvent) :
    completeCount (evs.map EngineEvent.progress) = 0 := by
  simpa [completeCount] using completeCount_progress_append evs []

theorem errorCount_progress (evs : List ProgressEvent) :
    errorCount (evs.map EngineEvent.progress) = 0 := by
  simpa [errorCount] using errorCount_progress_append evs []

theorem streamLoop_spec (openFor : Nat) (ups : List Update) :
    streamLoop openFor ups =
      ⟨(ups.take openFor).filterMap translateUpdate,
        decide (openFor < ups.length)⟩ := by
  induction ups generalizing openFor with
  | nil => simp [streamLoop]
  | cons u rest ih =>
    cases openFor with
    | zero => simp [streamLoop]
    | succ n =>
      simp only [streamLoop, ih, List.take_succ_cons, List.filterMap_cons,
        List.length_cons]
      cases translateUpdate u <;>
        simp [Option.toList, Nat.succ_lt_succ_iff]

theorem validQuery_iff (data : JSValue) :
    validQuery data = true ↔
      (jget data "type").isStr "ping" = false
      ∧ (jget data "type").isStr "cancel" = false
      ∧ queryOf data ≠ "" ∧ (queryOf data).length ≤ 50000 := by
  simp [validQuery, Bool.and_eq_true, and_assoc, Bool.not_eq_true']

theorem handleMessage_run (s : Session) (rawLen : Nat) (data : JSValue)
    (openFor : Nat) (run : EngineRun)
    (hp : s.isProcessing = false) (hlen : rawLen ≤ MAX_MESSAGE_SIZE)
    (hv : validQuery data = true) :
    handleMessage s rawLen (some data) openFor run =
      runBranch openFor run (buildStreamConfig data) := by
  obtain ⟨hping, hcancel, hq, hql⟩ := (validQuery_iff data).mp hv
  unfold handleMessage
  rw [if_neg (by omega)]
  simp only [hping, hcancel, hp, Bool.false_eq_true, if_false]
  rw [if_neg (by simpa using hq), if_neg (by omega)]

/-! ## Claim theorems -/

/-- C1: for every run of the engine, Complete and a terminal Error are
mutually exclusive, each occurs at most once, every normally-terminating
(non-cancelled) run emits exactly one of them, and a cancelled run emits
neither: the number of Complete events plus the number of Error events is
one for a non-cancelled run and zero for a cancelled one. -/
theorem engine_single_terminal_event (behavior : Nat → RoundOutcome)
    (fuel r : Nat) :
    completeCount (engineRun behavior fuel r).1
        + errorCount (engineRun behavior fuel r).1
        = (if (engineRun behavior fuel r).2 then 0 else 1)
    ∧ completeCount (engineRun behavior fuel r).1 ≤ 1
    ∧ errorCount (engineRun behavior fuel r).1 ≤ 1 := by
  induction fuel generalizing r with
  | zero => simp [engineRun, completeCount, errorCount]
  | succ n ih =>
    cases hb : behavior r with
    | ok evs converged =>
      cases converged with
      | true =>
        simp [engineRun, hb, completeCount_progress_append,
          errorCount_progress_append, completeCount, errorCount]
      | false =>
        simpa [engineRun, hb, completeCount_progress_append,
          errorCount_progress_append] using ih (r + 1)
    | fatal evs msg =>
      simp [engineRun, hb, completeCount_progress_append,
        errorCount_progress_append, completeCount, errorCount]
    | cancelled evs =>
      simp [engineRun, hb, completeCount_progress, errorCount_progress]

/-- C10: the cache-key fingerprint is not injective: the configs with
(apiKey "a", baseUrl "b:c") and (apiKey "a:b", baseUrl "c") differ but
share the cache key `openai:a:b:c:`, and after the first one populates
the cache, `createLLM` returns the very provider instance constructed
for the first config (same id, carrying the first config's fields) when
called with the second config, touching no state. -/
theorem cache_key_not_injective :
    getCacheKey { apiKey := some "a", baseUrl := some "b:c" }
        = getCacheKey { apiKey := some "a:b", baseUrl := some "c" }
    ∧ ({ apiKey := some "a", baseUrl := some "b:c" } : LLMConfig)
        ≠ { apiKey := some "a:b", baseUrl := some "c" }
    ∧ createLLM { apiKey := some "a", baseUrl := some "b:c" } ⟨[], 0⟩
        = .ok (⟨0, some "a", some "b:c", none⟩,
            ⟨[("openai:a:b:c:", ⟨0, some "a", some "b:c", none⟩)], 1⟩)
    ∧ createLLM { apiKey := some "a:b", baseUrl := some "c" }
          ⟨[("openai:a:b:c:", ⟨0, some "a", some "b:c", none⟩)], 1⟩
        = .ok (⟨0, some "a", some "b:c", none⟩,
            ⟨[("openai:a:b:c:", ⟨0, some "a", some "b:c", none⟩)], 1⟩) := by
  refine ⟨by decide, by decide, rfl, rfl⟩

/-- C8: the provider cache never exceeds MAX_CACHE_SIZE entries: a
successful `createLLM` from a state within the bound stays within the
bound, and when the cache is full and the key misses, the first entry in
map iteration order is evicted and the new entry appended (FIFO). -/
theorem cache_bounded_fifo (cfg : LLMConfig) (st : FactoryState)
    (p : Provider) (st' : FactoryState)
    (hb : st.cache.length ≤ MAX_CACHE_SIZE)
    (hok : createLLM cfg st = .ok (p, st')) :
    st'.cache.length ≤ MAX_CACHE_SIZE
    ∧ (st.cache.length = MAX_CACHE_SIZE →
        cacheGet st.cache (getCacheKey cfg) = none →
        st'.cache = st.cache.drop 1 ++ [(getCacheKey cfg, p)]) := by
  unfold createLLM at hok
  split at hok
  · exact absurd hok (by simp)
  · set key := getCacheKey cfg with hkey
    cases hget : cacheGet st.cache key with
    | some cached =>
      simp only [hget, Except.ok.injEq, Prod.mk.injEq] at hok
      obtain ⟨rfl, rfl⟩ := hok
      exact ⟨hb, fun _ hnone => absurd hnone (by simp [hget])⟩
    | none =>
      simp only [hget, Except.ok.injEq, Prod.mk.injEq] at hok
      obtain ⟨rfl, rfl⟩ := hok
      constructor
      · simp only [List.length_append, List.length_cons, List.length_nil]
        split
        · have : 1 ≤ st.cache.length := by
            unfold MAX_CACHE_SIZE at *; omega
          simp only [List.length_drop]; omega
        · omega
      · intro hfull _
        have hge : st.cache.length ≥ MAX_CACHE_SIZE := le_of_eq hfull.symm
        simp [hge]

/-- Witness for C8 at a concrete input: from the empty cache, creating a
provider stays within the bound. -/
theorem cache_bounded_fifo_witness :
    (⟨[("openai:k::", ⟨0, some "k", none, none⟩)], 1⟩ : FactoryState).cache.length
      ≤ MAX_CACHE_SIZE :=
  (cache_bounded_fifo { apiKey := some "k" } ⟨[], 0⟩
    ⟨0, some "k", none, none⟩
    ⟨[("openai:k::", ⟨0, some "k", none, none⟩)], 1⟩
    (by decide) rfl).1

/-- C7: `LLMFactory.createLLM` throws if and only if the effective
config's apiKey is absent or falsy; the error path returns no provider
and leaves the cache untouched (raised before any construction or
caching). When an error with message m propagates from the engine stream
before any update on an open socket, the handler surfaces it as the
single terminal error event. -/
theorem missing_api_key_rejected :
    (∀ cfg st, (∃ e, createLLM cfg st = .error e) ↔ strFalsy cfg.apiKey = true)
    ∧ (∀ s rawLen data openFor m,
        s.isProcessing = false → rawLen ≤ MAX_MESSAGE_SIZE →
        validQuery data = true → 1 ≤ openFor →
        (handleMessage s rawLen (some data) openFor ⟨[], some m⟩).sent
          = [errEvent m]) := by
  constructor
  · intro cfg st
    cases hf : strFalsy cfg.apiKey with
    | true =>
      refine ⟨fun _ => rfl, fun _ =>
        ⟨"LLM API Key 未配置。请在管理面板 (/admin) 中设置 API Key，或在 .env 中配置 OPENAI_API_KEY。", ?_⟩⟩
      unfold createLLM
      rw [if_pos hf]
    | false =>
      refine ⟨fun he => ?_, fun h => (Bool.false_ne_true h).elim⟩
      obtain ⟨e, he⟩ := he
      unfold createLLM at he
      rw [hf] at he
      simp only [Bool.false_eq_true, if_false] at he
      cases hget : cacheGet st.cache (getCacheKey cfg) <;> simp [hget] at he
  · intro s rawLen data openFor m hp hlen hv hopen
    rw [handleMessage_run s rawLen data openFor ⟨[], some m⟩ hp hlen hv]
    unfold runBranch
    simp [streamLoop, Nat.lt_of_lt_of_le Nat.zero_lt_one hopen]

/-- Witness for C7 at a concrete input: an engine stream that throws with
message boom before any update surfaces exactly one error event. -/
theorem missing_api_key_rejected_witness :
    (handleMessage ⟨false, false⟩ 10
        (some (.obj [("query", .str "hi")])) 1 ⟨[], some "boom"⟩).sent
      = [errEvent "boom"] :=
  missing_api_key_rejected.2 ⟨false, false⟩ 10 _ 1 "boom" rfl (by decide)
    (by decide) (by decide)

/-- C2 as amended: the RunConfig handed to `engine.stream` has maxRounds
equal to the message's maxRounds when truthy and 1 otherwise, and each of
defaultModel (from `model`), apiKey, baseUrl and fileContext is a key of
the config exactly when the corresponding message field is truthy, in
which case it holds that field's value; a field that is absent — or
present with a falsy value — yields no entry at all. -/
theorem streamConfig_fields_iff_truthy (data : JSValue) :
    (buildStreamConfig data).maxRounds
        = (if (jget data "maxRounds").truthy then jget data "maxRounds"
            else .num 1)
    ∧ ((buildStreamConfig data).defaultModel.isSome
          = (jget data "model").truthy
        ∧ (buildStreamConfig data).defaultModel.getD (jget data "model")
          = jget data "model")
    ∧ ((buildStreamConfig data).apiKey.isSome = (jget data "apiKey").truthy
        ∧ (buildStreamConfig data).apiKey.getD (jget data "apiKey")
          = jget data "apiKey")
    ∧ ((buildStreamConfig data).baseUrl.isSome = (jget data "baseUrl").truthy
        ∧ (buildStreamConfig data).baseUrl.getD (jget data "baseUrl")
          = jget data "baseUrl")
    ∧ ((buildStreamConfig data).fileContext.isSome
          = (jget data "fileContext").truthy
        ∧ (buildStreamConfig data).fileContext.getD (jget data "fileContext")
          = jget data "fileContext") := by
  refine ⟨rfl, ?_, ?_, ?_, ?_⟩
  · cases h : (jget data "model").truthy <;> simp [buildStreamConfig, h]
  · cases h : (jget data "apiKey").truthy <;> simp [buildStreamConfig, h]
  · cases h : (jget data "baseUrl").truthy <;> simp [buildStreamConfig, h]
  · cases h : (jget data "fileContext").truthy <;> simp [buildStreamConfig, h]

/-- C2 counterexample: a message whose `model` field is present with the
falsy value empty string gets no defaultModel key in the config, so
present-iff-included fails as stated. -/
theorem streamConfig_present_field_omitted :
    jget (JSValue.obj [("query", .str "hi"), ("model", .str "")]) "model"
        = JSValue.str ""
    ∧ (buildStreamConfig
          (JSValue.obj [("query", .str "hi"), ("model", .str "")])).defaultModel
        = none :=
  ⟨rfl, rfl⟩

/-- C3: while a prior run is processing, no new engine is constructed and
`stream` is not called, whatever the message; a query message (parsed,
within the size limit, not ping and not cancel) is answered with the
already-processing error event. -/
theorem single_run_in_flight (s : Session) (rawLen : Nat)
    (parsed : Option JSValue) (openFor : Nat) (run : EngineRun)
    (h : s.isProcessing = true) :
    (handleMessage s rawLen parsed openFor run).engineCreated = false
    ∧ (handleMessage s rawLen parsed openFor run).streamCalledWith = none
    ∧ ∀ data, parsed = some data → rawLen ≤ MAX_MESSAGE_SIZE →
        (jget data "type").isStr "ping" = false →
        (jget data "type").isStr "cancel" = false →
        (handleMessage s rawLen parsed openFor run).sent
          = [errEvent
              "Already processing a query. Please wait or send cancel."] := by
  refine ⟨?_, ?_, fun data hparsed hlen hping hcancel => ?_⟩
  · unfold handleMessage
    repeat' split
    all_goals rfl
  · unfold handleMessage
    repeat' split
    all_goals rfl
  · subst hparsed
    unfold handleMessage
    rw [if_neg (by omega)]
    simp only [hping, hcancel, h, Bool.false_eq_true, if_false, if_true]

/-- Witness for C3 at a concrete input: a fresh query while processing is
answered with the already-processing error. -/
theorem single_run_in_flight_witness :
    (handleMessage ⟨true, true⟩ 10 (some (.obj [("query", .str "hi")])) 0
        ⟨[], none⟩).sent
      = [errEvent "Already processing a query. Please wait or send cancel."] :=
  (single_run_in_flight ⟨true, true⟩ 10 (some (.obj [("query", .str "hi")])) 0
      ⟨[], none⟩ rfl).2.2 _ rfl (by decide) rfl rfl

/-- C4 counterexample: a ping message has no query field, yet the
transport answers it with a pong (not an error-shaped event), so the
claim as stated — every message with a missing query gets an error —
fails on ping messages. -/
theorem validation_claim_fails_on_ping :
    jget (JSValue.obj [("type", .str "ping")]) "query" = JSValue.undefined
    ∧ (handleMessage ⟨false, false⟩ 10 (some (.obj [("type", .str "ping")])) 0
        ⟨[], none⟩).sent = [pongEvent]
    ∧ jget pongEvent "type" = JSValue.str "pong" :=
  ⟨rfl, rfl, rfl⟩

/-- C4 as amended: every oversized raw message is answered with the
error event and nothing else, whatever its content; and every parsed
message not recognized as ping or cancel whose query is missing, not a
string, trims to empty, or exceeds 50000 characters is answered with an
error-shaped event, with no engine constructed and no stream call. -/
theorem invalid_query_rejected_before_engine :
    (∀ s rawLen parsed openFor run, rawLen > MAX_MESSAGE_SIZE →
        handleMessage s rawLen parsed openFor run
          = ⟨[errEvent "Message too large"], 0, false, none, s⟩)
    ∧ (∀ s rawLen data openFor run,
        (jget data "type").isStr "ping" = false →
        (jget data "type").isStr "cancel" = false →
        (queryOf data = "" ∨ (queryOf data).length > 50000) →
        ∃ m, (handleMessage s rawLen (some data) openFor run).sent
            = [errEvent m]
          ∧ (handleMessage s rawLen (some data) openFor run).engineCreated
            = false
          ∧ (handleMessage s rawLen (some data) openFor run).streamCalledWith
            = none) := by
  constructor
  · intro s rawLen parsed openFor run hlen
    unfold handleMessage
    rw [if_pos hlen]
  · intro s rawLen data openFor run hping hcancel hbad
    by_cases hlen : rawLen > MAX_MESSAGE_SIZE
    · refine ⟨"Message too large", ?_, ?_, ?_⟩ <;>
        (unfold handleMessage; rw [if_pos hlen])
    · by_cases hp : s.isProcessing = true
      · refine ⟨"Already processing a query. Please wait or send cancel.",
          ?_, ?_, ?_⟩ <;>
          (unfold handleMessage;
            rw [if_neg hlen];
            simp only [hping, hcancel, hp, Bool.false_eq_true, if_false,
              if_true])
      · have hp2 : s.isProcessing = false := by simpa using hp
        by_cases hq : queryOf data = ""
        · refine ⟨"Empty query", ?_, ?_, ?_⟩ <;>
            (unfold handleMessage;
              rw [if_neg hlen];
              simp only [hping, hcancel, hp2, Bool.false_eq_true, if_false];
              rw [if_pos (by simpa using hq)])
        · have hlong : (queryOf data).length > 50000 := hbad.resolve_left hq
          refine ⟨"Query too long (max 50,000 characters)", ?_, ?_, ?_⟩ <;>
            (unfold handleMessage;
              rw [if_neg hlen];
              simp only [hping, hcancel, hp2, Bool.false_eq_true, if_false];
              rw [if_neg (by simpa using hq), if_pos hlong])

/-- Witness for C4 at a concrete input: a message without a query field
is rejected without constructing an engine or calling stream. -/
theorem invalid_query_rejected_before_engine_witness :
    (handleMessage ⟨false, false⟩ 10 (some (.obj [])) 0
        ⟨[], none⟩).engineCreated = false
    ∧ (handleMessage ⟨false, false⟩ 10 (some (.obj [])) 0
        ⟨[], none⟩).streamCalledWith = none :=
  (invalid_query_rejected_before_engine.2 ⟨false, false⟩ 10 (.obj []) 0
      ⟨[], none⟩ rfl rfl (Or.inl rfl)).elim
    (fun _ hm => ⟨hm.2.1, hm.2.2⟩)

/-- C5: on every spec-typed update (NodeStart data an object or absent,
NodeComplete state's searchResults a sequence or unset), the transport
loop sends exactly the wire shape the spec lists for that event. -/
theorem wire_shapes_preserved (u : Update) (h : specTypedUpdate u = true) :
    translateUpdate u = wireShapeSpec u := by
  cases u with
  | node_start node data =>
    cases data <;>
      simp_all [translateUpdate, wireShapeSpec, specTypedUpdate,
        JSValue.truthy]
  | expert_complete data => rfl
  | node_complete node state =>
    have hsame : (jget state "searchResults").truthy
        = specCarriesSearchResults state := by
      unfold specTypedUpdate specTypedState at h
      cases hsr : jget state "searchResults" <;>
        simp_all [JSValue.truthy, specCarriesSearchResults]
    simp only [translateUpdate, wireShapeSpec, hsame]
    cases hc : (node.isStr "search" && specCarriesSearchResults state) <;>
      simp [hc]
  | complete state => rfl
  | other => rfl

/-- Witness for C5 at a concrete input: the completed search node with a
three-element result list translates to the spec's wire shape. -/
theorem wire_shapes_preserved_witness :
    specTypedUpdate (Update.node_complete (.str "search")
        (.obj [("searchResults", .arr [.num 1, .num 2, .num 3])])) = true
    ∧ translateUpdate (Update.node_complete (.str "search")
        (.obj [("searchResults", .arr [.num 1, .num 2, .num 3])]))
      = wireShapeSpec (Update.node_complete (.str "search")
        (.obj [("searchResults", .arr [.num 1, .num 2, .num 3])])) :=
  ⟨rfl, wire_shapes_preserved _ rfl⟩

theorem runBranch_final (openFor : Nat) (run : EngineRun)
    (cfg : StreamConfig) :
    (runBranch openFor run cfg).final = ⟨false, false⟩
    ∧ (runBranch openFor run cfg).engineCreated = true
    ∧ (runBranch openFor run cfg).streamCalledWith = some cfg := by
  unfold runBranch
  cases hth : run.thrown with
  | none => exact ⟨rfl, rfl, rfl⟩
  | some m =>
    cases hb : (streamLoop openFor run.updates).broke <;> simp [hb]

/-- C6: cancellation and disconnect forward abort to the engine and add
no events: a cancel message while an engine exists calls abort exactly
once and sends nothing; when the socket leaves readyState 1 before the
stream is exhausted, the run calls abort exactly once, stops consuming,
and sends exactly the events translated from the updates consumed while
open — no error and no complete appended, also when the iterator would
have thrown later; the close handler aborts any in-flight engine. -/
theorem cancellation_forwards_abort :
    (∀ s rawLen data openFor run, rawLen ≤ MAX_MESSAGE_SIZE →
        (jget data "type").isStr "cancel" = true →
        s.hasEngine = true →
        handleMessage s rawLen (some data) openFor run
          = ⟨[], 1, false, none, s⟩)
    ∧ (∀ s rawLen data openFor run, s.isProcessing = false →
        rawLen ≤ MAX_MESSAGE_SIZE → validQuery data = true →
        openFor < run.updates.length →
        handleMessage s rawLen (some data) openFor run
          = ⟨(run.updates.take openFor).filterMap translateUpdate, 1, true,
              some (buildStreamConfig data), ⟨false, false⟩⟩)
    ∧ (∀ s, s.hasEngine = true →
        closeHandler s = (1, ⟨s.isProcessing, false⟩)) := by
  refine ⟨?_, ?_, ?_⟩
  · intro s rawLen data openFor run hlen hcancel heng
    have hping : (jget data "type").isStr "ping" = false := by
      cases hv : jget data "type" <;> simp_all [JSValue.isStr]
    unfold handleMessage
    rw [if_neg (by omega)]
    simp only [hping, hcancel, heng, Bool.false_eq_true, if_false, if_true]
  · intro s rawLen data openFor run hp hlen hv hlt
    rw [handleMessage_run s rawLen data openFor run hp hlen hv]
    unfold runBranch
    rw [streamLoop_spec]
    cases hth : run.thrown <;> simp [hth, hlt]
  · intro s hs
    unfold closeHandler
    rw [if_pos hs]

/-- Witness for C6 at a concrete input: a cancel message while an engine
exists aborts it once and sends nothing, and a socket that closes before
the first update aborts the run with nothing sent. -/
theorem cancellation_forwards_abort_witness :
    handleMessage ⟨false, true⟩ 10 (some (.obj [("type", .str "cancel")])) 0
        ⟨[], none⟩
      = ⟨[], 1, false, none, ⟨false, true⟩⟩
    ∧ handleMessage ⟨false, false⟩ 10 (some (.obj [("query", .str "hi")])) 0
        ⟨[.other], none⟩
      = ⟨[], 1, true, some (buildStreamConfig (.obj [("query", .str "hi")])),
          ⟨false, false⟩⟩ :=
  ⟨cancellation_forwards_abort.1 ⟨false, true⟩ 10 _ 0 ⟨[], none⟩ (by decide)
      rfl rfl,
    cancellation_forwards_abort.2.1 ⟨false, false⟩ 10 _ 0 ⟨[.other], none⟩ rfl
      (by decide) (by decide) (by decide)⟩

/-- C9: from an idle session the handler always leaves isProcessing
false; whenever a run was started (an engine was constructed) it leaves
the session fully idle (isProcessing false, currentEngine null) whether
the stream ended, broke on a closed socket, or threw; and a subsequent
valid query on the fully idle session is accepted: an engine is
constructed and stream is called with the built config. -/
theorem session_returns_to_idle (s : Session) (rawLen : Nat)
    (parsed : Option JSValue) (openFor : Nat) (run : EngineRun)
    (h : s.isProcessing = false) :
    (handleMessage s rawLen parsed openFor run).final.isProcessing = false
    ∧ ((handleMessage s rawLen parsed openFor run).engineCreated = true →
        (handleMessage s rawLen parsed openFor run).final = ⟨false, false⟩)
    ∧ (∀ data rawLen2 openFor2 run2, rawLen2 ≤ MAX_MESSAGE_SIZE →
        validQuery data = true →
        (handleMessage ⟨false, false⟩ rawLen2 (some data) openFor2
            run2).engineCreated = true
        ∧ (handleMessage ⟨false, false⟩ rawLen2 (some data) openFor2
            run2).streamCalledWith = some (buildStreamConfig data)) := by
  refine ⟨?_, ?_, fun data rawLen2 openFor2 run2 hlen2 hv2 => ?_⟩
  · unfold handleMessage
    repeat' split
    all_goals first
      | exact h
      | rw [(runBranch_final _ _ _).1]
  · unfold handleMessage
    repeat' split
    all_goals first
      | (intro hc; cases hc)
      | exact fun _ => (runBranch_final _ _ _).1
  · rw [handleMessage_run ⟨false, false⟩ rawLen2 data openFor2 run2 rfl
      hlen2 hv2]
    exact ⟨(runBranch_final _ _ _).2.1, (runBranch_final _ _ _).2.2⟩

/-- Witness for C9 at a concrete input: after a run whose stream throws,
the session is idle again. -/
theorem session_returns_to_idle_witness :
    (handleMessage ⟨false, false⟩ 10 (some (.obj [("query", .str "hi")])) 5
        ⟨[], some "boom"⟩).final.isProcessing = false :=
  (session_returns_to_idle ⟨false, false⟩ 10
    (some (.obj [("query", .str "hi")])) 5 ⟨[], some "boom"⟩ rfl).1
